import Mathlib

set_option maxRecDepth 100000

/-!
Verification of the PDI control-center inventory core against its
specification.  The development shallowly embeds the relevant Python code
(`services/email_service.py`, `routers/logistics.py`) as Lean functions:

* fixed-width S08 manifest parsing (`_peek_load_ref`, `_parse_s08_content`),
* the ingestion pipeline (`fetch_and_process_emails`,
  `create_vehicles_from_email_data`),
* the receive-load and manual-sale endpoints (`receive_load_action`,
  `create_manual_sale`).

Strings are modelled as `List Char` where character indexing matters ( a
Python slice `s[a:b]` truncates instead of raising, exactly like
`(l.drop a).take (b - a)` ).  Database tables are lists of records; the
SQLAlchemy session is threaded explicitly.  Sessions are created with
`autoflush=False` (database.py:79), so a SELECT issued inside a request
evaluates its filter against the committed rows: in-session attribute
mutations and pending `db.add` rows are invisible to queries until the
final `commit`.  The manual-sale loop is modelled accordingly: its
per-chassis lookup runs against the committed vehicle list, fixed for
the whole request, while mutations accumulate in the session state that
the commit writes back.  Keyword arguments omitted from a SQLAlchemy
model constructor leave the corresponding nullable column `NULL`,
modelled as `none` (the ORM model module itself is outside the analysed
sources; the spec's data model in §3 lists which columns are nullable).
-/

namespace PDI

/-- A manifest line, as a list of characters. -/
abbrev Line := List Char

/-- Python slice `l[a:b]` (for `0 ≤ a ≤ b`): truncating, never failing. -/
def pySlice (l : Line) (a b : Nat) : Line :=
  (l.drop a).take (b - a)

/-- Python `str.isspace` characters stripped by `str.strip()`. -/
def isPySpace (c : Char) : Bool :=
  c == ' ' || c == '\t' || c == '\n' || c == '\r' || c == '\x0b' || c == '\x0c'

/-- Python `str.strip()`. -/
def pyStrip (l : Line) : Line :=
  ((l.dropWhile isPySpace).reverse.dropWhile isPySpace).reverse

/-- `line[a:b].strip()` rendered back to a `String`. -/
def sliceStrip (l : Line) (a b : Nat) : String :=
  String.mk (pyStrip (pySlice l a b))

/-- Python `s.strip()` on a `String`. -/
def stripString (s : String) : String :=
  String.mk (pyStrip s.toList)

/-- One decoded S08 manifest record (the per-line dict built by
`_parse_s08_content`). -/
structure S08Record where
  load_reference : String
  chassis_no : String
  engine_no : String
  color : String
  model : String
  variant : String
deriving Repr, DecidableEq

/-- The product decoder map: `(model_code, variant_code) ↦
(real_model, real_variant)`, loaded from the `ProductMapping` table. -/
abbrev DecoderMap := List ((String × String) × (String × String))

/-- The optional color map (`{}` models Python `None`/empty, both falsy). -/
abbrev ColorMap := List (String × String)

/-- The guard on which `_parse_s08_content` and `_peek_load_ref` skip a
line: `len(line) < 180 or line[25] != 'B'` (negated). -/
def qualifiesS08 (line : Line) : Bool :=
  decide (180 ≤ line.length) && line.get? 25 == some 'B'

/-- Color decoding inside `_parse_s08_content`: `final_color =
color_map.get(raw, raw) if color_map else raw`. -/
def finalColor (cm : ColorMap) (raw : String) : String :=
  if cm.isEmpty then raw else (List.lookup raw cm).getD raw

/-- The body of `_parse_s08_content`'s loop for one qualifying line: fixed
byte-offset slices plus decoder/color lookups with raw-code fallback. -/
def decodeS08Line (dm : DecoderMap) (cm : ColorMap) (line : Line) : S08Record :=
  let m_code := sliceStrip line 27 38
  let v_code := sliceStrip line 38 45
  let mv := (List.lookup (m_code, v_code) dm).getD (m_code, v_code)
  let raw_color := sliceStrip line 45 60
  { load_reference := sliceStrip line 84 97
    chassis_no := sliceStrip line 113 130
    engine_no := sliceStrip line 173 186
    color := finalColor cm raw_color
    model := mv.1
    variant := mv.2 }

/-- `_parse_s08_content` (email_service.py:153-181): iterate the lines of
the blob, skip any line failing the length-180 / sentinel-'B' guard, decode
the rest in order. -/
def parse_s08_content (dm : DecoderMap) (cm : ColorMap) : List Line → List S08Record
  | [] => []
  | line :: rest =>
    if line.length < 180 || !(line.get? 25 == some 'B') then
      parse_s08_content dm cm rest
    else
      decodeS08Line dm cm line :: parse_s08_content dm cm rest

/-- `_peek_load_ref` (email_service.py:144-150): load reference
(`line[84:97].strip()`) of the first qualifying line, if any. -/
def peek_load_ref : List Line → Option String
  | [] => none
  | line :: rest =>
    if line.length < 180 || !(line.get? 25 == some 'B') then
      peek_load_ref rest
    else
      some (sliceStrip line 84 97)

/-- Left-justify a field to width `w`, space padded (how the vendor lays
out a fixed-width S08 field). -/
def padField (w : Nat) (s : List Char) : List Char :=
  s ++ List.replicate (w - s.length) ' '

/-- A concrete 186-character S08 manifest line with the given field
contents at the decoder's offsets: sentinel `'B'` at 25, model code at
27-37, variant code at 38-44, color code at 45-59, load reference at
84-96, chassis at 113-129, engine at 173-185. -/
def mkS08Line (model variant color load chassis engine : List Char) : Line :=
  List.replicate 25 ' ' ++ ['B', ' '] ++ padField 11 model ++ padField 7 variant ++
    padField 15 color ++ List.replicate 24 ' ' ++ padField 13 load ++
    List.replicate 16 ' ' ++ padField 17 chassis ++ List.replicate 43 ' ' ++
    padField 13 engine

/-- A `VehicleMaster` row (columns used by the analysed code). -/
structure VehicleMaster where
  chassis_no : String
  engine_no : String
  model : String
  variant : String
  color : String
  status : String
  load_reference_number : Option String
  current_branch_id : String
deriving Repr, DecidableEq

/-- An `InventoryTransaction` row (columns used by the analysed code;
nullable columns are `Option`, and a constructor call that omits one
leaves it `none`). -/
structure InventoryTransaction where
  date : Nat
  chassis_no : Option String
  model : String
  variant : String
  color : String
  transaction_type : String
  from_branch_id : Option String
  to_branch_id : Option String
  current_branch_id : String
  quantity : Nat
  load_number : Option String
  status : Option String
  remarks : String
deriving Repr, DecidableEq

/-- The database state touched by the analysed operations. -/
structure DB where
  vehicles : List VehicleMaster
  transactions : List InventoryTransaction
deriving Repr, DecidableEq

/-! ## Receive-load endpoint (`receive_load_action`, logistics.py:103-184) -/

/-- The selection filter of the query at logistics.py:127-131:
`Load_Number == load ∧ To_Branch_ID == branch ∧ Transaction_Type ==
"OUTWARD"`.  Note: no condition on `Status`. -/
def matchesReceive (load branch : String) (t : InventoryTransaction) : Bool :=
  t.load_number == some load && t.to_branch_id == some branch &&
    t.transaction_type == "OUTWARD"

/-- Python `f"{x}"` for a nullable value. -/
def pyShowOpt : Option String → String
  | some s => s
  | none => "None"

/-- The INWARD transaction constructed at logistics.py:157-169.  The
constructor passes no `chassis_no` and no `Status`, so those columns are
left NULL. -/
def mkInward (today : Nat) (branch load : String) (t : InventoryTransaction) :
    InventoryTransaction where
  date := today
  chassis_no := none
  model := t.model
  variant := t.variant
  color := t.color
  transaction_type := "INWARD"
  from_branch_id := t.from_branch_id
  to_branch_id := none
  current_branch_id := branch
  quantity := t.quantity
  load_number := some load
  status := none
  remarks := "Received from Branch " ++ pyShowOpt t.from_branch_id

/-- `VehicleMaster.query.filter(chassis_no == ch).first()` followed by the
in-place update at logistics.py:151-154: flip the first vehicle with this
chassis to `In Stock` at the receiving branch; report whether one was
found. -/
def receiveVehicleUpdate (ch branch : String) :
    List VehicleMaster → List VehicleMaster × Bool
  | [] => ([], false)
  | v :: vs =>
    if v.chassis_no == ch then
      ({ v with current_branch_id := branch, status := "In Stock" } :: vs, true)
    else
      let r := receiveVehicleUpdate ch branch vs
      (v :: r.1, r.2)

/-- Accumulator of the per-transaction loop at logistics.py:141-170. -/
structure ReceiveStep where
  vehicles : List VehicleMaster
  inwards : List InventoryTransaction
  received : Nat
deriving Repr, DecidableEq

/-- One iteration of the loop at logistics.py:141-170 (the status flip on
the OUTWARD row itself is applied separately, see `receive_load_action`). -/
def receiveOne (today : Nat) (branch load : String) (acc : ReceiveStep)
    (t : InventoryTransaction) : ReceiveStep :=
  let acc1 :=
    match t.chassis_no with
    | none => acc
    | some ch =>
      let r := receiveVehicleUpdate ch branch acc.vehicles
      { acc with
        vehicles := r.1
        received := if r.2 then acc.received + 1 else acc.received }
  { acc1 with inwards := acc1.inwards ++ [mkInward today branch load t] }

/-- Result of a write endpoint: committed state, success flag, count. -/
structure ReceiveResult where
  db : DB
  success : Bool
  received_count : Nat
deriving Repr, DecidableEq

/-- `receive_load_action` (logistics.py:103-184): select all OUTWARD rows
for `(load, branch)` — with no Status filter — fail if there are none,
else flip each selected row's `Status` to `Completed`, move each matching
vehicle to `In Stock` at the receiving branch, and append one INWARD row
per selected transaction. -/
def receive_load_action (today : Nat) (db : DB) (load branch : String) :
    ReceiveResult :=
  let pending := db.transactions.filter (matchesReceive load branch)
  if pending.isEmpty then
    { db := db, success := false, received_count := 0 }
  else
    let completed := db.transactions.map fun t =>
      if matchesReceive load branch t then { t with status := some "Completed" }
      else t
    let s := pending.foldl (receiveOne today branch load)
      ⟨db.vehicles, [], 0⟩
    { db := { vehicles := s.vehicles, transactions := completed ++ s.inwards }
      success := true
      received_count := s.received }

/-! ## Manual-sale endpoint (`create_manual_sale`, logistics.py:276-360) -/

/-- The lookup filter at logistics.py:309-313: this chassis, at the active
branch, `In Stock`. -/
def saleEligible (ch branch : String) (v : VehicleMaster) : Bool :=
  v.chassis_no == ch && v.current_branch_id == branch && v.status == "In Stock"

/-- The SELECT at logistics.py:309-313, `.first()`: position and value of
the first row matching the filter, evaluated against the committed column
values — the session has `autoflush=False` (database.py:79), so the
in-session status flips of earlier loop iterations are not visible to
this query. -/
def findSaleVehicle (ch branch : String) :
    List VehicleMaster → Option (Nat × VehicleMaster)
  | [] => none
  | v :: vs =>
    if saleEligible ch branch v then some (0, v)
    else (findSaleVehicle ch branch vs).map (fun p => (p.1 + 1, p.2))

/-- The SALE transaction constructed at logistics.py:322-336. -/
def mkSaleTxn (sale_date : Nat) (branch ch remarks : String)
    (v : VehicleMaster) : InventoryTransaction where
  date := sale_date
  chassis_no := some ch
  model := v.model
  variant := v.variant
  color := v.color
  transaction_type := "SALE"
  from_branch_id := none
  to_branch_id := none
  current_branch_id := branch
  quantity := 1
  load_number := none
  status := some "Completed"
  remarks := "Manual Sale: " ++ remarks

/-- The per-chassis loop at logistics.py:307-339.  `dbVehicles` is the
committed vehicle table, fixed for the whole request (`autoflush=False`:
neither the status flips nor the pending SALE rows are flushed inside the
loop); every lookup runs against it.  On a hit, `vehicle.status = "Sold"`
mutates the identity-mapped object — the session row at the found
position — and the SALE transaction is built from that object's
attributes. -/
def saleLoop (sale_date : Nat) (branch remarks : String)
    (dbVehicles : List VehicleMaster) :
    List String → List VehicleMaster → List InventoryTransaction → Nat →
      List VehicleMaster × List InventoryTransaction × Nat
  | [], vs, sales, cnt => (vs, sales, cnt)
  | ch :: rest, vs, sales, cnt =>
    match findSaleVehicle ch branch dbVehicles with
    | some (i, v) =>
      saleLoop sale_date branch remarks dbVehicles rest
        (vs.set i { v with status := "Sold" })
        (sales ++ [mkSaleTxn sale_date branch ch remarks v]) (cnt + 1)
    | none =>
      saleLoop sale_date branch remarks dbVehicles rest vs sales cnt

/-- `chassis_numbers = [c.strip() for c in raw.split(",") if c.strip()]`
(logistics.py:288-289), starting from the already-split list. -/
def cleanChassis (l : List String) : List String :=
  (l.map stripString).filter (fun c => c ≠ "")

/-- Result of the manual-sale endpoint. -/
structure SaleResult where
  db : DB
  success : Bool
  sold_count : Nat
  message : String
deriving Repr, DecidableEq

/-- `create_manual_sale` (logistics.py:276-360): clean the input list;
reject an empty batch; sell each eligible chassis (silently skipping the
rest); roll back and reject when nothing was sold, else commit the flips
and the appended SALE rows. -/
def create_manual_sale (sale_date : Nat) (db : DB) (branch remarks : String)
    (chassisInput : List String) : SaleResult :=
  let chassis := cleanChassis chassisInput
  if chassis.isEmpty then
    { db := db, success := false, sold_count := 0
      message := "At least one chassis number is required" }
  else
    let r := saleLoop sale_date branch remarks db.vehicles chassis db.vehicles [] 0
    if r.2.2 == 0 then
      { db := db, success := false, sold_count := 0
        message := "No valid vehicles found. Please check chassis numbers." }
    else
      { db := { vehicles := r.1, transactions := db.transactions ++ r.2.1 }
        success := true
        sold_count := r.2.2
        message := "Successfully logged " ++ toString r.2.2 ++ " manual sale(s)" }

/-! ## Ingestion pipeline (`fetch_and_process_emails`,
`create_vehicles_from_email_data`, email_service.py:10-223) -/

/-- A mailbox: message ids in mailbox order (oldest first), each carrying
the decoded text of its S08 attachment when it has one. -/
abbrev Mailbox := List (Option (List Line))

/-- The dedup probe at email_service.py:102-104: does any vehicle bear
this load reference? -/
def loadRefPresent (vs : List VehicleMaster) (ref : String) : Bool :=
  vs.any fun v => v.load_reference_number == some ref

/-- The scan loop of `fetch_and_process_emails` (email_service.py:77-117):
break once `s08_files_found ≥ target_count` (5); otherwise, for a message
with an S08 attachment, count it, peek its first load reference, skip it
when the reference is missing or already present in the vehicle master,
else parse it and accumulate the records. -/
def fetchLoop (dm : DecoderMap) (cm : ColorMap) (vs : List VehicleMaster) :
    List (Option (List Line)) → Nat → List S08Record
  | [], _ => []
  | msg :: rest, found =>
    if 5 ≤ found then []
    else
      match msg with
      | none => fetchLoop dm cm vs rest found
      | some content =>
        match peek_load_ref content with
        | none => fetchLoop dm cm vs rest (found + 1)
        | some first_ref =>
          if loadRefPresent vs first_ref then
            fetchLoop dm cm vs rest (found + 1)
          else
            parse_s08_content dm cm content ++ fetchLoop dm cm vs rest (found + 1)

/-- `fetch_and_process_emails` (email_service.py:10-127): scan the most
recent 30 messages, newest first (`list(reversed(email_ids))[:30]`),
through `fetchLoop`. -/
def fetch_and_process_emails (dm : DecoderMap) (cm : ColorMap) (db : DB)
    (mailbox : Mailbox) : List S08Record :=
  fetchLoop dm cm db.vehicles (mailbox.reverse.take 30) 0

/-- The `VehicleMaster` row built at email_service.py:204-213.  The parsed
dicts carry no `source_branch` key, so `vehicle_data.get('source_branch')
or branch_id` is the configured branch. -/
def mkVehicleFromRecord (branch : String) (r : S08Record) : VehicleMaster where
  chassis_no := r.chassis_no
  engine_no := r.engine_no
  model := r.model
  variant := r.variant
  color := r.color
  status := "In Transit"
  load_reference_number := some r.load_reference
  current_branch_id := branch

/-- The chassis-existence probe at email_service.py:195-197. -/
def chassisPresent (vs : List VehicleMaster) (ch : String) : Bool :=
  vs.any fun v => v.chassis_no == ch

/-- `create_vehicles_from_email_data` (email_service.py:184-223): for each
parsed record, skip it when a vehicle with its chassis already exists,
else insert a new `In Transit` vehicle.  The model threads the inserts
through the existence check; the program's own pending `db.add` rows are
invisible to its queries (`autoflush=False`), so model and program can
differ only when a single batch repeats a chassis that is fresh at batch
start — every committed row present at batch start is seen identically
by both, which is all the claims exercise. -/
def create_vehicles_from_email_data (branch : String) :
    List S08Record → List VehicleMaster → List VehicleMaster
  | [], vs => vs
  | r :: rest, vs =>
    if chassisPresent vs r.chassis_no then
      create_vehicles_from_email_data branch rest vs
    else
      create_vehicles_from_email_data branch rest (vs ++ [mkVehicleFromRecord branch r])

/-- One ingestion run (`sync_emails`, logistics.py:363-454): fetch and
parse, then persist. -/
def ingest (dm : DecoderMap) (cm : ColorMap) (branch : String) (db : DB)
    (mailbox : Mailbox) : DB :=
  let recs := fetch_and_process_emails dm cm db mailbox
  { db with vehicles := create_vehicles_from_email_data branch recs db.vehicles }

/-! ## Parser lemmas -/

/-- The skip guard of the parser loop is the negation of `qualifiesS08`. -/
theorem s08_guard_eq (line : Line) :
    (decide (line.length < 180) || !(line.get? 25 == some 'B')) = !qualifiesS08 line := by
  by_cases h : 180 ≤ line.length <;>
    by_cases h2 : (line.get? 25 == some 'B') = true <;>
      simp [qualifiesS08, h, h2, Nat.not_le, Nat.lt_of_not_le]

/-- The parser decodes exactly the qualifying lines, in input order. -/
theorem parse_eq_filter_map (dm : DecoderMap) (cm : ColorMap) :
    ∀ content, parse_s08_content dm cm content =
      (content.filter qualifiesS08).map (decodeS08Line dm cm)
  | [] => rfl
  | line :: rest => by
    rw [parse_s08_content, List.filter_cons, s08_guard_eq]
    cases hq : qualifiesS08 line <;>
      simp [hq, parse_eq_filter_map dm cm rest]

/-- `_peek_load_ref` agrees with the load reference of the first record a
full parse would produce (for any decoder and color maps). -/
theorem peek_eq_head (dm : DecoderMap) (cm : ColorMap) :
    ∀ content, peek_load_ref content =
      ((parse_s08_content dm cm content).head?).map S08Record.load_reference
  | [] => rfl
  | line :: rest => by
    rw [peek_load_ref, parse_s08_content]
    cases hq : (decide (line.length < 180) || !(line.get? 25 == some 'B')) <;>
      simp [hq, peek_eq_head dm cm rest, decodeS08Line]

/-- C3: on any input blob, the fixed-width manifest parser decodes exactly
the lines whose length is at least 180 and whose character at offset 25 is
`'B'`, in original input order, and yields exactly as many records as
there are such lines; all other lines are skipped silently.  (The parser
is a total Lean function, so no per-line exception escapes it; the
Python `try/except` around the slice-and-strip decode of a qualifying
line corresponds to the total `decodeS08Line`.) -/
theorem parse_s08_selects_qualifying_lines (dm : DecoderMap) (cm : ColorMap)
    (content : List Line) :
    parse_s08_content dm cm content =
      (content.filter qualifiesS08).map (decodeS08Line dm cm) ∧
    (parse_s08_content dm cm content).length = content.countP qualifiesS08 := by
  refine ⟨parse_eq_filter_map dm cm content, ?_⟩
  rw [parse_eq_filter_map dm cm content, List.length_map,
    List.countP_eq_length_filter]

/-- C7: a `(model code, variant code)` pair absent from the product
mapping decodes to the raw (stripped) codes unchanged, and a color code
absent from the optional color map is kept unchanged; no lookup miss is
an error. -/
theorem decoder_fallback_raw_codes (dm : DecoderMap) (cm : ColorMap) (line : Line)
    (hm : List.lookup (sliceStrip line 27 38, sliceStrip line 38 45) dm = none)
    (hc : List.lookup (sliceStrip line 45 60) cm = none) :
    (decodeS08Line dm cm line).model = sliceStrip line 27 38 ∧
    (decodeS08Line dm cm line).variant = sliceStrip line 38 45 ∧
    (decodeS08Line dm cm line).color = sliceStrip line 45 60 := by
  simp only [decodeS08Line, finalColor, hm, Option.getD_none]
  rw [hc]
  by_cases h : cm.isEmpty <;> simp [h]

/-- The decoder and color maps of the C7 witness. -/
def dmW : DecoderMap := [(("M1", "V1"), ("Activa", "Std"))]

/-- Color map for the C7 witness. -/
def cmW : ColorMap := [("COL9", "Pearl Blue")]

/-- A qualifying line whose codes miss both maps. -/
def lineW : Line :=
  mkS08Line "M2".toList "V2".toList "C1".toList "LOAD777".toList
    "CHW1".toList "ENGW1".toList

/-- Witness for C7 at a concrete line and concrete maps. -/
theorem decoder_fallback_raw_codes_witness :
    List.lookup (sliceStrip lineW 27 38, sliceStrip lineW 38 45) dmW = none ∧
    List.lookup (sliceStrip lineW 45 60) cmW = none ∧
    ((decodeS08Line dmW cmW lineW).model = sliceStrip lineW 27 38 ∧
     (decodeS08Line dmW cmW lineW).variant = sliceStrip lineW 38 45 ∧
     (decodeS08Line dmW cmW lineW).color = sliceStrip lineW 45 60) :=
  ⟨by decide, by decide,
    decoder_fallback_raw_codes dmW cmW lineW (by decide) (by decide)⟩

/-- C9: the S08 parsing functions are total over the embedding: a
qualifying line always yields exactly one record (the per-line exception
handler is unreachable), a slice past the end of the line truncates
instead of failing — for a line of length at most 186 the engine field is
whatever remains after offset 173 — and `_peek_load_ref` is the (total)
head-projection of the full parse. -/
theorem parser_total_and_truncating (dm : DecoderMap) (cm : ColorMap) :
    (∀ line : Line, qualifiesS08 line = true →
      parse_s08_content dm cm [line] = [decodeS08Line dm cm line]) ∧
    (∀ line : Line, line.length ≤ 186 →
      (decodeS08Line dm cm line).engine_no = String.mk (pyStrip (line.drop 173))) ∧
    (∀ content, peek_load_ref content =
      ((parse_s08_content dm cm content).head?).map S08Record.load_reference) := by
  refine ⟨?_, ?_, peek_eq_head dm cm⟩
  · intro line hq
    rw [parse_eq_filter_map]
    simp [hq]
  · intro line hlen
    have h13 : (line.drop 173).length ≤ 13 := by
      rw [List.length_drop]; omega
    simp [decodeS08Line, sliceStrip, pySlice, List.take_of_length_le h13]

/-- A qualifying line of length exactly 180: the engine slice `[173:186]`
has only 7 characters available. -/
def lineShort : Line :=
  (mkS08Line "M2".toList "V2".toList "C1".toList "LOAD778".toList
    "CHW2".toList "E123456789ABC".toList).take 180

/-- Witness for C9 at a concrete 180-character line: it still decodes to a
record, with the engine number truncated to the 7 available characters. -/
theorem parser_total_and_truncating_witness :
    qualifiesS08 lineShort = true ∧ lineShort.length = 180 ∧
    parse_s08_content [] [] [lineShort] = [decodeS08Line [] [] lineShort] ∧
    (decodeS08Line [] [] lineShort).engine_no = String.mk (pyStrip (lineShort.drop 173)) ∧
    (decodeS08Line [] [] lineShort).engine_no = "E123456" :=
  ⟨by decide, by decide,
    (parser_total_and_truncating [] []).1 lineShort (by decide),
    (parser_total_and_truncating [] []).2.1 lineShort (by decide),
    by decide⟩

/-! ## Receive-load lemmas and claims -/

/-- One loop iteration appends exactly one INWARD row. -/
theorem receiveOne_inwards (today : Nat) (branch load : String)
    (acc : ReceiveStep) (t : InventoryTransaction) :
    (receiveOne today branch load acc t).inwards =
      acc.inwards ++ [mkInward today branch load t] := by
  unfold receiveOne
  cases t.chassis_no <;> simp

/-- The receive loop appends one INWARD row per selected transaction, in
order. -/
theorem receiveFold_inwards (today : Nat) (branch load : String) :
    ∀ (pending : List InventoryTransaction) (acc : ReceiveStep),
      (pending.foldl (receiveOne today branch load) acc).inwards =
        acc.inwards ++ pending.map (mkInward today branch load)
  | [], acc => by simp
  | t :: rest, acc => by
    rw [List.foldl_cons, receiveFold_inwards today branch load rest,
      receiveOne_inwards]
    simp

/-- A freshly created INWARD row never matches the receive query (its
transaction type is INWARD and its to-branch is NULL). -/
theorem matchesReceive_mkInward (load branch l2 b2 : String) (today : Nat)
    (t : InventoryTransaction) :
    matchesReceive load branch (mkInward today b2 l2 t) = false := by
  simp [matchesReceive, mkInward]

/-- C2 (amended): when the receive query selects at least one OUTWARD row
for `(load, branch)`, the call succeeds, every selected row's status is
flipped to `Completed`, and exactly one new INWARD row carrying the same
load number is appended per selected OUTWARD row — but the INWARD rows
carry no chassis number (the constructor omits `chassis_no`). -/
theorem receive_pairs_and_completes (today : Nat) (db : DB) (load branch : String)
    (hp : db.transactions.filter (matchesReceive load branch) ≠ []) :
    (receive_load_action today db load branch).success = true ∧
    (∃ inw, (receive_load_action today db load branch).db.transactions =
        db.transactions.map (fun t => if matchesReceive load branch t
          then { t with status := some "Completed" } else t) ++ inw ∧
      inw.length = db.transactions.countP (matchesReceive load branch) ∧
      ∀ t ∈ inw, t.transaction_type = "INWARD" ∧ t.load_number = some load ∧
        t.chassis_no = none) ∧
    (∀ t ∈ (receive_load_action today db load branch).db.transactions,
      matchesReceive load branch t = true → t.status = some "Completed") := by
  have hne : (db.transactions.filter (matchesReceive load branch)).isEmpty = false := by
    simpa [List.isEmpty_iff] using hp
  simp only [receive_load_action, hne, Bool.false_eq_true, if_false]
  refine ⟨trivial, ⟨(db.transactions.filter (matchesReceive load branch)).map
      (mkInward today branch load), ?_, ?_, ?_⟩, ?_⟩
  · rw [receiveFold_inwards]
    simp
  · simp [List.countP_eq_length_filter]
  · intro t ht
    rcases List.mem_map.mp ht with ⟨t0, _, rfl⟩
    exact ⟨rfl, rfl, rfl⟩
  · intro t ht hmt
    rw [receiveFold_inwards] at ht
    simp only [List.nil_append] at ht
    rcases List.mem_append.mp ht with h1 | h2
    · rcases List.mem_map.mp h1 with ⟨t0, _, rfl⟩
      by_cases hm0 : matchesReceive load branch t0
      · simp [hm0]
      · simp only [hm0, if_false] at hmt ⊢
        exact absurd hmt hm0
    · rcases List.mem_map.mp h2 with ⟨t0, _, rfl⟩
      rw [matchesReceive_mkInward] at hmt
      cases hmt

/-- A vehicle CH1 in transit to branch 2 under load L1. -/
def vehRecv : VehicleMaster where
  chassis_no := "CH1"
  engine_no := "E1"
  model := "Activa"
  variant := "Std"
  color := "Red"
  status := "In Transit"
  load_reference_number := some "L1"
  current_branch_id := "1"

/-- The Pending OUTWARD transfer row for CH1 (load L1, branch 1 → 2). -/
def outwRecv : InventoryTransaction where
  date := 0
  chassis_no := some "CH1"
  model := "Activa"
  variant := "Std"
  color := "Red"
  transaction_type := "OUTWARD"
  from_branch_id := some "1"
  to_branch_id := some "2"
  current_branch_id := "1"
  quantity := 1
  load_number := some "L1"
  status := some "Pending"
  remarks := "DC1"

/-- The state right after a one-vehicle transfer was created. -/
def dbRecv : DB where
  vehicles := [vehRecv]
  transactions := [outwRecv]

/-- Counterexample to C2 as stated: after receiving load L1 at branch 2,
there is exactly one INWARD row for L1 but no INWARD row carrying chassis
CH1 — the paired INWARD does not carry the OUTWARD's chassis number. -/
theorem receive_inward_chassis_missing :
    (receive_load_action 1 dbRecv "L1" "2").db.transactions.countP
      (fun t => t.transaction_type == "INWARD" && t.load_number == some "L1") = 1 ∧
    (receive_load_action 1 dbRecv "L1" "2").db.transactions.countP
      (fun t => t.transaction_type == "INWARD" && t.chassis_no == some "CH1") = 0 := by
  decide

/-- Witness for the amended C2 at the concrete one-vehicle load. -/
theorem receive_pairs_and_completes_witness :
    dbRecv.transactions.filter (matchesReceive "L1" "2") ≠ [] ∧
    ((receive_load_action 1 dbRecv "L1" "2").success = true ∧
     (∃ inw, (receive_load_action 1 dbRecv "L1" "2").db.transactions =
        dbRecv.transactions.map (fun t => if matchesReceive "L1" "2" t
          then { t with status := some "Completed" } else t) ++ inw ∧
      inw.length = dbRecv.transactions.countP (matchesReceive "L1" "2") ∧
      ∀ t ∈ inw, t.transaction_type = "INWARD" ∧ t.load_number = some "L1" ∧
        t.chassis_no = none) ∧
     (∀ t ∈ (receive_load_action 1 dbRecv "L1" "2").db.transactions,
      matchesReceive "L1" "2" t = true → t.status = some "Completed")) :=
  ⟨by decide, receive_pairs_and_completes 1 dbRecv "L1" "2" (by decide)⟩

/-- C1: the receive query at logistics.py:127-131 has no
`Status == "Pending"` filter (contradicting the comment right above it),
so a second receive of the same `(load, branch)` re-selects the
already-Completed OUTWARD row: after the first receive there is one
INWARD row, and the second call succeeds and appends a second INWARD row
instead of being a no-op. -/
theorem receive_second_call_appends_inward :
    (receive_load_action 1 dbRecv "L1" "2").db.transactions.countP
      (fun t => t.transaction_type == "INWARD") = 1 ∧
    (receive_load_action 2 (receive_load_action 1 dbRecv "L1" "2").db "L1" "2").success
      = true ∧
    (receive_load_action 2 (receive_load_action 1 dbRecv "L1" "2").db "L1" "2").db.transactions.countP
      (fun t => t.transaction_type == "INWARD") = 2 := by
  decide

/-! ## Manual-sale lemmas and claims -/

/-- The sale lookup finds nothing when no committed row is eligible. -/
theorem findSaleVehicle_of_not_eligible (ch branch : String) :
    ∀ vs, (∀ u ∈ vs, saleEligible ch branch u = false) →
      findSaleVehicle ch branch vs = none
  | [], _ => rfl
  | v :: vs, h => by
    rw [findSaleVehicle]
    have hv : saleEligible ch branch v = false := h v (List.mem_cons_self v vs)
    simp only [hv, Bool.false_eq_true, if_false]
    rw [findSaleVehicle_of_not_eligible ch branch vs
      (fun u hu => h u (List.mem_cons_of_mem v hu))]
    rfl

/-- A found row is an eligible member of the queried table. -/
theorem findSaleVehicle_some_spec (ch branch : String) :
    ∀ vs i v, findSaleVehicle ch branch vs = some (i, v) →
      v ∈ vs ∧ saleEligible ch branch v = true
  | [], _, _, h => by simp [findSaleVehicle] at h
  | u :: us, i, v, h => by
    rw [findSaleVehicle] at h
    by_cases hu : saleEligible ch branch u
    · rw [if_pos hu] at h
      obtain ⟨-, h2⟩ := Prod.mk.injEq .. |>.mp (Option.some.inj h)
      subst h2
      exact ⟨List.mem_cons_self u us, hu⟩
    · rw [if_neg hu] at h
      cases hrec : findSaleVehicle ch branch us with
      | none => rw [hrec] at h; cases h
      | some p =>
        rw [hrec, Option.map_some'] at h
        obtain ⟨-, h2⟩ := Prod.mk.injEq .. |>.mp (Option.some.inj h)
        subst h2
        obtain ⟨hm, he⟩ :=
          findSaleVehicle_some_spec ch branch us p.1 p.2 (by rw [hrec])
        exact ⟨List.mem_cons_of_mem u hm, he⟩

/-- Unfolding of the sale loop on one chassis. -/
theorem saleLoop_cons (d : Nat) (branch rem : String)
    (dbVehicles : List VehicleMaster) (ch : String) (rest : List String)
    (vs : List VehicleMaster) (sales : List InventoryTransaction) (cnt : Nat) :
    saleLoop d branch rem dbVehicles (ch :: rest) vs sales cnt =
      match findSaleVehicle ch branch dbVehicles with
      | some (i, v) => saleLoop d branch rem dbVehicles rest
          (vs.set i { v with status := "Sold" })
          (sales ++ [mkSaleTxn d branch ch rem v]) (cnt + 1)
      | none => saleLoop d branch rem dbVehicles rest vs sales cnt := rfl

/-- One iteration with a hit: flip the identity-mapped row, append one
SALE transaction, count one sale. -/
theorem saleLoop_cons_found (d : Nat) (branch rem : String)
    (dbVehicles : List VehicleMaster) (ch : String) (rest : List String)
    (vs : List VehicleMaster) (sales : List InventoryTransaction) (cnt : Nat)
    (i : Nat) (v : VehicleMaster)
    (hf : findSaleVehicle ch branch dbVehicles = some (i, v)) :
    saleLoop d branch rem dbVehicles (ch :: rest) vs sales cnt =
      saleLoop d branch rem dbVehicles rest (vs.set i { v with status := "Sold" })
        (sales ++ [mkSaleTxn d branch ch rem v]) (cnt + 1) := by
  rw [saleLoop_cons]
  simp only [hf]

/-- One iteration with a miss: the chassis is skipped with no effect. -/
theorem saleLoop_cons_notfound (d : Nat) (branch rem : String)
    (dbVehicles : List VehicleMaster) (ch : String) (rest : List String)
    (vs : List VehicleMaster) (sales : List InventoryTransaction) (cnt : Nat)
    (hf : findSaleVehicle ch branch dbVehicles = none) :
    saleLoop d branch rem dbVehicles (ch :: rest) vs sales cnt =
      saleLoop d branch rem dbVehicles rest vs sales cnt := by
  rw [saleLoop_cons]
  simp only [hf]

/-- Shape of a full sale loop run: it appends `extra` SALE rows (one per
hit), counts them, and only flips committed `In Stock` vehicles of the
active branch to `Sold`. -/
theorem saleLoop_shape (d : Nat) (branch rem : String)
    (dbVehicles : List VehicleMaster) :
    ∀ (input : List String) (vs : List VehicleMaster)
      (sales : List InventoryTransaction) (cnt : Nat),
      ∃ vs' extra,
        saleLoop d branch rem dbVehicles input vs sales cnt =
          (vs', sales ++ extra, cnt + extra.length) ∧
        (∀ t ∈ extra, t.transaction_type = "SALE" ∧ t.quantity = 1 ∧
          t.current_branch_id = branch) ∧
        (∀ u ∈ vs', u ∈ vs ∨ ∃ v0, v0 ∈ dbVehicles ∧ v0.status = "In Stock" ∧
          v0.current_branch_id = branch ∧ u = { v0 with status := "Sold" })
  | [], vs, sales, cnt =>
    ⟨vs, [], by simp [saleLoop], by simp, fun u hu => Or.inl hu⟩
  | ch :: rest, vs, sales, cnt => by
    cases hf : findSaleVehicle ch branch dbVehicles with
    | none =>
      rw [saleLoop_cons_notfound d branch rem dbVehicles ch rest vs sales cnt hf]
      exact saleLoop_shape d branch rem dbVehicles rest vs sales cnt
    | some p =>
      obtain ⟨i, v⟩ := p
      rw [saleLoop_cons_found d branch rem dbVehicles ch rest vs sales cnt i v hf]
      obtain ⟨hvmem, helig⟩ := findSaleVehicle_some_spec ch branch dbVehicles i v hf
      obtain ⟨vs', extra', heq, hextra, hveh⟩ :=
        saleLoop_shape d branch rem dbVehicles rest
          (vs.set i { v with status := "Sold" })
          (sales ++ [mkSaleTxn d branch ch rem v]) (cnt + 1)
      refine ⟨vs', mkSaleTxn d branch ch rem v :: extra', ?_, ?_, ?_⟩
      · refine heq.trans ?_
        simp [List.append_assoc]
        omega
      · intro t ht
        rcases List.mem_cons.mp ht with rfl | ht2
        · exact ⟨rfl, rfl, rfl⟩
        · exact hextra t ht2
      · intro u hu
        rcases hveh u hu with h1 | hex
        · rcases List.mem_or_eq_of_mem_set h1 with h2 | rfl
          · exact Or.inl h2
          · simp only [saleEligible, Bool.and_eq_true, beq_iff_eq] at helig
            obtain ⟨⟨-, hb⟩, hstk⟩ := helig
            exact Or.inr ⟨v, hvmem, hstk, hb, rfl⟩
        · exact Or.inr hex

/-- Does a transaction record a SALE of this chassis? -/
def saleTxnFor (ch : String) (t : InventoryTransaction) : Bool :=
  t.transaction_type == "SALE" && t.chassis_no == some ch

/-- When some committed row is eligible for `ch`, the loop appends one
SALE row for `ch` per occurrence of `ch` in the input: the lookup runs
against the committed rows (`autoflush=False`), so earlier in-session
flips never make a later occurrence miss. -/
theorem saleLoop_count_per_occurrence (d : Nat) (branch rem ch : String)
    (dbVehicles : List VehicleMaster)
    (hfound : (findSaleVehicle ch branch dbVehicles).isSome = true) :
    ∀ (input : List String) (vs : List VehicleMaster)
      (sales : List InventoryTransaction) (cnt : Nat),
      (saleLoop d branch rem dbVehicles input vs sales cnt).2.1.countP (saleTxnFor ch) =
        sales.countP (saleTxnFor ch) + input.count ch
  | [], vs, sales, cnt => by simp [saleLoop]
  | ch0 :: rest, vs, sales, cnt => by
    by_cases hcc : ch0 = ch
    · subst hcc
      cases hf : findSaleVehicle ch0 branch dbVehicles with
      | none =>
        rw [hf] at hfound
        simp at hfound
      | some p =>
        obtain ⟨i, v⟩ := p
        rw [saleLoop_cons_found d branch rem dbVehicles ch0 rest vs sales cnt i v hf,
          saleLoop_count_per_occurrence d branch rem ch0 dbVehicles hfound rest
            (vs.set i { v with status := "Sold" })
            (sales ++ [mkSaleTxn d branch ch0 rem v]) (cnt + 1)]
        have hrow : saleTxnFor ch0 (mkSaleTxn d branch ch0 rem v) = true := by
          simp [saleTxnFor, mkSaleTxn]
        rw [List.countP_append]
        simp [List.countP_cons, hrow, List.count_cons]
        omega
    · cases hf : findSaleVehicle ch0 branch dbVehicles with
      | none =>
        rw [saleLoop_cons_notfound d branch rem dbVehicles ch0 rest vs sales cnt hf,
          saleLoop_count_per_occurrence d branch rem ch dbVehicles hfound rest
            vs sales cnt]
        simp [List.count_cons, hcc]
      | some p =>
        obtain ⟨i, v⟩ := p
        have hrow : saleTxnFor ch (mkSaleTxn d branch ch0 rem v) = false := by
          simp [saleTxnFor, mkSaleTxn, hcc]
        rw [saleLoop_cons_found d branch rem dbVehicles ch0 rest vs sales cnt i v hf,
          saleLoop_count_per_occurrence d branch rem ch dbVehicles hfound rest
            (vs.set i { v with status := "Sold" })
            (sales ++ [mkSaleTxn d branch ch0 rem v]) (cnt + 1)]
        rw [List.countP_append]
        simp [List.countP_cons, hrow, List.count_cons, hcc]

/-- C5 (amended): the manual-sale endpoint leaves the database untouched
whenever it reports failure (in particular for a batch with zero valid
chassis); on success it appends exactly `sold_count` SALE rows, each with
quantity 1 at the active branch; the only vehicle mutation is flipping
committed `In Stock` vehicles of the active branch to `Sold`; and a
chassis with no eligible committed row is skipped with no effect at all
on the processing of the remaining chassis (it is not identified in the
response). -/
theorem manual_sale_behavior (d : Nat) (db : DB) (branch rem : String)
    (input : List String) :
    ((create_manual_sale d db branch rem input).success = false →
      (create_manual_sale d db branch rem input).db = db) ∧
    (∃ extra, (create_manual_sale d db branch rem input).db.transactions =
        db.transactions ++ extra ∧
      extra.length = (create_manual_sale d db branch rem input).sold_count ∧
      ∀ t ∈ extra, t.transaction_type = "SALE" ∧ t.quantity = 1 ∧
        t.current_branch_id = branch) ∧
    (∀ v ∈ (create_manual_sale d db branch rem input).db.vehicles,
      v ∈ db.vehicles ∨ ∃ v0, v0 ∈ db.vehicles ∧ v0.status = "In Stock" ∧
        v0.current_branch_id = branch ∧ v = { v0 with status := "Sold" }) ∧
    (∀ (ch : String) (rest : List String) (dbv vs : List VehicleMaster)
      (sales : List InventoryTransaction) (cnt : Nat),
      (∀ u ∈ dbv, saleEligible ch branch u = false) →
      saleLoop d branch rem dbv (ch :: rest) vs sales cnt =
        saleLoop d branch rem dbv rest vs sales cnt) := by
  have hskip : ∀ (ch : String) (rest : List String) (dbv vs : List VehicleMaster)
      (sales : List InventoryTransaction) (cnt : Nat),
      (∀ u ∈ dbv, saleEligible ch branch u = false) →
      saleLoop d branch rem dbv (ch :: rest) vs sales cnt =
        saleLoop d branch rem dbv rest vs sales cnt := by
    intro ch rest dbv vs sales cnt h
    exact saleLoop_cons_notfound d branch rem dbv ch rest vs sales cnt
      (findSaleVehicle_of_not_eligible ch branch dbv h)
  unfold create_manual_sale
  by_cases hemp : (cleanChassis input).isEmpty
  · simp only [hemp, if_true]
    refine ⟨by simp, ⟨[], by simp, by simp, by simp⟩, fun v hv => Or.inl hv, hskip⟩
  · simp only [hemp, Bool.false_eq_true, if_false]
    obtain ⟨vs', extra, heq, hextra, hveh⟩ :=
      saleLoop_shape d branch rem db.vehicles (cleanChassis input) db.vehicles [] 0
    rw [heq]
    simp only [List.nil_append, Nat.zero_add]
    by_cases hlen : extra.length = 0
    · simp only [hlen, Nat.zero_add]
      simp only [show ((0 : Nat) == 0) = true from rfl, if_true]
      refine ⟨by simp, ⟨[], by simp, by simp, by simp⟩, fun v hv => Or.inl hv, hskip⟩
    · simp only [show (extra.length == 0) = false from by
        simpa [Nat.beq_eq_true_eq] using hlen, Bool.false_eq_true, if_false]
      refine ⟨?_, ⟨extra, rfl, rfl, hextra⟩, hveh, hskip⟩
      intro hcontra
      simp at hcontra

/-- An In Stock vehicle GOOD1 at branch B1. -/
def vehSale : VehicleMaster where
  chassis_no := "GOOD1"
  engine_no := "EG1"
  model := "Activa"
  variant := "Std"
  color := "Red"
  status := "In Stock"
  load_reference_number := some "L9"
  current_branch_id := "B1"

/-- A branch with a single sellable vehicle. -/
def dbSale : DB where
  vehicles := [vehSale]
  transactions := []

/-- Does `needle` occur as a contiguous substring of `hay`? -/
def occursIn (needle hay : List Char) : Bool :=
  (List.range (hay.length + 1)).any fun i =>
    (hay.drop i).take needle.length == needle

/-- Counterexample to C5 as stated: submitting `["BAD1", "GOOD1"]` where
BAD1 matches no In Stock vehicle succeeds with one sale, and the response
message is the generic success string — the rejected chassis BAD1 is not
identified anywhere in the response. -/
theorem manual_sale_silent_skip_cex :
    (create_manual_sale 0 dbSale "B1" "walk-in" ["BAD1", "GOOD1"]).success = true ∧
    (create_manual_sale 0 dbSale "B1" "walk-in" ["BAD1", "GOOD1"]).sold_count = 1 ∧
    (create_manual_sale 0 dbSale "B1" "walk-in" ["BAD1", "GOOD1"]).message =
      "Successfully logged 1 manual sale(s)" ∧
    occursIn "BAD1".toList
      (create_manual_sale 0 dbSale "B1" "walk-in" ["BAD1", "GOOD1"]).message.toList
      = false := by
  decide

/-- Witness for the amended C5: a batch with only an invalid chassis is
rejected with no state change, and an invalid chassis is skipped without
affecting the rest of the loop. -/
theorem manual_sale_behavior_witness :
    (create_manual_sale 0 dbSale "B1" "walk-in" ["BAD1"]).success = false ∧
    (create_manual_sale 0 dbSale "B1" "walk-in" ["BAD1"]).db = dbSale ∧
    (∀ u ∈ [vehSale], saleEligible "BAD1" "B1" u = false) ∧
    saleLoop 0 "B1" "walk-in" [vehSale] ["BAD1", "GOOD1"] [vehSale] [] 0 =
      saleLoop 0 "B1" "walk-in" [vehSale] ["GOOD1"] [vehSale] [] 0 :=
  ⟨by decide,
   (manual_sale_behavior 0 dbSale "B1" "walk-in" ["BAD1"]).1 (by decide),
   by decide,
   (manual_sale_behavior 0 dbSale "B1" "walk-in" ["BAD1"]).2.2.2 "BAD1" ["GOOD1"]
     [vehSale] [vehSale] [] 0 (by decide)⟩

/-- Counterexample to C10 as stated: the session has `autoflush=False`
(database.py:79), so the first occurrence's in-memory `status = "Sold"`
is not visible to the second SELECT, which still matches the committed
In Stock row; selling `["GOOD1", "GOOD1"]` therefore yields TWO SALE
rows for GOOD1 and a sold count of 2, not one — while the vehicle row
itself, being the same identity-mapped object, is flipped only once. -/
theorem manual_sale_duplicate_double_cex :
    (create_manual_sale 0 dbSale "B1" "walk-in" ["GOOD1", "GOOD1"]).sold_count = 2 ∧
    (create_manual_sale 0 dbSale "B1" "walk-in" ["GOOD1", "GOOD1"]).db.transactions.countP
      (saleTxnFor "GOOD1") = 2 ∧
    (create_manual_sale 0 dbSale "B1" "walk-in" ["GOOD1", "GOOD1"]).db.vehicles =
      [{ vehSale with status := "Sold" }] := by
  decide

/-- C10 (amended): within a single manual-sale request, a chassis listed
more than once whose committed row is In Stock at the branch yields one
SALE ledger row per occurrence, each occurrence counted in the reported
sold count: the session has `autoflush=False`, so the first occurrence's
status flip is invisible to the later occurrences' lookups, which match
the committed In Stock row again. -/
theorem duplicate_chassis_sold_each_occurrence (d : Nat) (db : DB)
    (branch rem ch : String) (input : List String)
    (h1 : (findSaleVehicle ch branch db.vehicles).isSome = true)
    (h2 : 2 ≤ (cleanChassis input).count ch) :
    (create_manual_sale d db branch rem input).db.transactions.countP (saleTxnFor ch) =
      db.transactions.countP (saleTxnFor ch) + (cleanChassis input).count ch ∧
    (create_manual_sale d db branch rem input).sold_count =
      (create_manual_sale d db branch rem input).db.transactions.length -
        db.transactions.length := by
  have hmem : ch ∈ cleanChassis input := by
    by_contra hn
    rw [List.count_eq_zero.mpr hn] at h2
    omega
  have hemp : (cleanChassis input).isEmpty = false := by
    cases hcl : cleanChassis input with
    | nil => rw [hcl] at hmem; cases hmem
    | cons a l => rfl
  obtain ⟨vs', extra, heq, hextra, hveh⟩ :=
    saleLoop_shape d branch rem db.vehicles (cleanChassis input) db.vehicles [] 0
  have hcount := saleLoop_count_per_occurrence d branch rem ch db.vehicles h1
    (cleanChassis input) db.vehicles [] 0
  rw [heq] at hcount
  simp only [List.nil_append, List.countP_nil, Nat.zero_add] at hcount
  have hlen : extra.length ≠ 0 := by
    intro h0
    rw [List.length_eq_zero.mp h0] at hcount
    simp only [List.countP_nil] at hcount
    omega
  unfold create_manual_sale
  simp only [hemp, Bool.false_eq_true, if_false]
  rw [heq]
  simp only [List.nil_append, Nat.zero_add]
  simp only [show (extra.length == 0) = false from by
    simpa [Nat.beq_eq_true_eq] using hlen, Bool.false_eq_true, if_false]
  constructor
  · simp [List.countP_append, hcount]
  · simp [List.length_append]

/-- Witness for the amended C10: selling `["GOOD1", "GOOD1"]` yields one
SALE row per occurrence — two rows — and a sold count of two. -/
theorem duplicate_chassis_sold_each_occurrence_witness :
    (findSaleVehicle "GOOD1" "B1" dbSale.vehicles).isSome = true ∧
    2 ≤ (cleanChassis ["GOOD1", "GOOD1"]).count "GOOD1" ∧
    ((create_manual_sale 0 dbSale "B1" "walk-in" ["GOOD1", "GOOD1"]).db.transactions.countP
        (saleTxnFor "GOOD1") =
      dbSale.transactions.countP (saleTxnFor "GOOD1") +
        (cleanChassis ["GOOD1", "GOOD1"]).count "GOOD1" ∧
     (create_manual_sale 0 dbSale "B1" "walk-in" ["GOOD1", "GOOD1"]).sold_count =
      (create_manual_sale 0 dbSale "B1" "walk-in" ["GOOD1", "GOOD1"]).db.transactions.length -
        dbSale.transactions.length) :=
  ⟨by decide, by decide,
   duplicate_chassis_sold_each_occurrence 0 dbSale "B1" "walk-in" "GOOD1"
     ["GOOD1", "GOOD1"] (by decide) (by decide)⟩

/-! ## Ingestion lemmas and claims -/

/-- The persistence step only ever appends vehicles. -/
theorem create_vehicles_shape (branch : String) :
    ∀ recs vs, ∃ extra, create_vehicles_from_email_data branch recs vs = vs ++ extra
  | [], vs => ⟨[], by simp [create_vehicles_from_email_data]⟩
  | r :: rest, vs => by
    rw [create_vehicles_from_email_data]
    by_cases h : chassisPresent vs r.chassis_no
    · simp only [h, if_true]
      exact create_vehicles_shape branch rest vs
    · simp only [h, Bool.false_eq_true, if_false]
      obtain ⟨extra, heq⟩ :=
        create_vehicles_shape branch rest (vs ++ [mkVehicleFromRecord branch r])
      exact ⟨mkVehicleFromRecord branch r :: extra, by rw [heq]; simp⟩

/-- Any vehicle predicate already satisfied keeps holding after
persistence (vehicles are never deleted or modified by it). -/
theorem create_vehicles_any_mono (branch : String) (p : VehicleMaster → Bool)
    (recs : List S08Record) (vs : List VehicleMaster) (h : vs.any p = true) :
    (create_vehicles_from_email_data branch recs vs).any p = true := by
  obtain ⟨extra, heq⟩ := create_vehicles_shape branch recs vs
  rw [heq]
  simp [List.any_append, h]

/-- Chassis presence survives appending further vehicles. -/
theorem chassisPresent_append_left (vs extra : List VehicleMaster) (ch : String)
    (h : chassisPresent vs ch = true) : chassisPresent (vs ++ extra) ch = true := by
  simp only [chassisPresent, List.any_append] at h ⊢
  simp [h]

/-- After persisting a record batch, every record's chassis is present in
the vehicle master (it was inserted, or it already existed). -/
theorem create_vehicles_mem_present (branch : String) :
    ∀ recs vs r, r ∈ recs →
      chassisPresent (create_vehicles_from_email_data branch recs vs)
        r.chassis_no = true
  | [], _, r, hr => absurd hr (List.not_mem_nil r)
  | r0 :: rest, vs, r, hr => by
    rw [create_vehicles_from_email_data]
    by_cases h : chassisPresent vs r0.chassis_no
    · simp only [h, if_true]
      rcases List.mem_cons.mp hr with rfl | h2
      · exact create_vehicles_any_mono branch _ rest vs h
      · exact create_vehicles_mem_present branch rest vs r h2
    · simp only [h, Bool.false_eq_true, if_false]
      rcases List.mem_cons.mp hr with rfl | h2
      · refine create_vehicles_any_mono branch _ rest
          (vs ++ [mkVehicleFromRecord branch r]) ?_
        simp [chassisPresent, List.any_append, mkVehicleFromRecord]
      · exact create_vehicles_mem_present branch rest
          (vs ++ [mkVehicleFromRecord branch r0]) r h2

/-- Persisting records whose chassis all already exist changes nothing. -/
theorem create_vehicles_noop (branch : String) :
    ∀ recs vs, (∀ r ∈ recs, chassisPresent vs r.chassis_no = true) →
      create_vehicles_from_email_data branch recs vs = vs
  | [], _, _ => rfl
  | r :: rest, vs, h => by
    rw [create_vehicles_from_email_data]
    have hr := h r (List.mem_cons_self r rest)
    simp only [hr, if_true]
    exact create_vehicles_noop branch rest vs
      (fun r2 h2 => h r2 (List.mem_cons_of_mem r h2))

/-- Persistence never adds a vehicle for a chassis that is already
present: the count of vehicles bearing that chassis is unchanged. -/
theorem create_vehicles_countP_present (branch ch : String) :
    ∀ recs vs, chassisPresent vs ch = true →
      (create_vehicles_from_email_data branch recs vs).countP
        (fun v => v.chassis_no == ch) = vs.countP (fun v => v.chassis_no == ch)
  | [], _, _ => rfl
  | r :: rest, vs, h => by
    rw [create_vehicles_from_email_data]
    by_cases hp : chassisPresent vs r.chassis_no
    · simp only [hp, if_true]
      exact create_vehicles_countP_present branch ch rest vs h
    · simp only [hp, Bool.false_eq_true, if_false]
      have hne : r.chassis_no ≠ ch := fun he => hp (he ▸ h)
      rw [create_vehicles_countP_present branch ch rest
        (vs ++ [mkVehicleFromRecord branch r])
        (chassisPresent_append_left vs _ ch h)]
      simp [List.countP_append, List.countP_cons, mkVehicleFromRecord, hne]

/-- Unfolding of the scan loop on one message. -/
theorem fetchLoop_cons (dm : DecoderMap) (cm : ColorMap) (vs : List VehicleMaster)
    (msg : Option (List Line)) (rest : List (Option (List Line))) (found : Nat) :
    fetchLoop dm cm vs (msg :: rest) found =
      if 5 ≤ found then []
      else match msg with
        | none => fetchLoop dm cm vs rest found
        | some content =>
          match peek_load_ref content with
          | none => fetchLoop dm cm vs rest (found + 1)
          | some first_ref =>
            if loadRefPresent vs first_ref then fetchLoop dm cm vs rest (found + 1)
            else parse_s08_content dm cm content ++ fetchLoop dm cm vs rest (found + 1)
    := rfl

/-- Once five S08 attachments have been counted, the scan stops. -/
theorem fetchLoop_break (dm : DecoderMap) (cm : ColorMap) (vs : List VehicleMaster)
    (msgs : List (Option (List Line))) (found : Nat) (h : 5 ≤ found) :
    fetchLoop dm cm vs msgs found = [] := by
  cases msgs with
  | nil => rfl
  | cons m rest => rw [fetchLoop_cons, if_pos h]

/-- A message without an S08 attachment is skipped without counting. -/
theorem fetchLoop_skip_none (dm : DecoderMap) (cm : ColorMap)
    (vs : List VehicleMaster) (rest : List (Option (List Line))) (found : Nat)
    (h : ¬ 5 ≤ found) :
    fetchLoop dm cm vs (none :: rest) found = fetchLoop dm cm vs rest found := by
  rw [fetchLoop_cons, if_neg h]

/-- An attachment without a load reference is counted and skipped. -/
theorem fetchLoop_skip_nopeek (dm : DecoderMap) (cm : ColorMap)
    (vs : List VehicleMaster) (content : List Line)
    (rest : List (Option (List Line))) (found : Nat)
    (h : ¬ 5 ≤ found) (hp : peek_load_ref content = none) :
    fetchLoop dm cm vs (some content :: rest) found =
      fetchLoop dm cm vs rest (found + 1) := by
  rw [fetchLoop_cons, if_neg h]
  simp only [hp]

/-- An attachment whose first load reference is already in the vehicle
master is skipped in its entirety — but still counted. -/
theorem fetchLoop_skip_dup (dm : DecoderMap) (cm : ColorMap)
    (vs : List VehicleMaster) (content : List Line)
    (rest : List (Option (List Line))) (found : Nat) (ref : String)
    (h : ¬ 5 ≤ found) (hp : peek_load_ref content = some ref)
    (hd : loadRefPresent vs ref = true) :
    fetchLoop dm cm vs (some content :: rest) found =
      fetchLoop dm cm vs rest (found + 1) := by
  rw [fetchLoop_cons, if_neg h]
  simp only [hp, hd, if_true]

/-- A fresh attachment is parsed in full and counted. -/
theorem fetchLoop_parse (dm : DecoderMap) (cm : ColorMap)
    (vs : List VehicleMaster) (content : List Line)
    (rest : List (Option (List Line))) (found : Nat) (ref : String)
    (h : ¬ 5 ≤ found) (hp : peek_load_ref content = some ref)
    (hd : loadRefPresent vs ref = false) :
    fetchLoop dm cm vs (some content :: rest) found =
      parse_s08_content dm cm content ++ fetchLoop dm cm vs rest (found + 1) := by
  rw [fetchLoop_cons, if_neg h]
  simp only [hp, hd, Bool.false_eq_true, if_false]

/-- A scan against a vehicle master with more load references present
yields a subset of the records: whatever the larger state still parses,
the smaller state parsed too. -/
theorem fetchLoop_mem_mono (dm : DecoderMap) (cm : ColorMap)
    (vs0 vs1 : List VehicleMaster)
    (href : ∀ ref, loadRefPresent vs0 ref = true → loadRefPresent vs1 ref = true) :
    ∀ (msgs : List (Option (List Line))) (found : Nat) (r : S08Record),
      r ∈ fetchLoop dm cm vs1 msgs found → r ∈ fetchLoop dm cm vs0 msgs found
  | [], found, r => id
  | msg :: rest, found, r => by
    by_cases hf : 5 ≤ found
    · rw [fetchLoop_break dm cm vs1 _ found hf, fetchLoop_break dm cm vs0 _ found hf]
      exact id
    · cases msg with
      | none =>
        rw [fetchLoop_skip_none dm cm vs1 rest found hf,
          fetchLoop_skip_none dm cm vs0 rest found hf]
        exact fetchLoop_mem_mono dm cm vs0 vs1 href rest found r
      | some content =>
        cases hpeek : peek_load_ref content with
        | none =>
          rw [fetchLoop_skip_nopeek dm cm vs1 content rest found hf hpeek,
            fetchLoop_skip_nopeek dm cm vs0 content rest found hf hpeek]
          exact fetchLoop_mem_mono dm cm vs0 vs1 href rest (found + 1) r
        | some ref =>
          by_cases h1 : loadRefPresent vs1 ref
          · rw [fetchLoop_skip_dup dm cm vs1 content rest found ref hf hpeek h1]
            intro hr
            by_cases h0 : loadRefPresent vs0 ref
            · rw [fetchLoop_skip_dup dm cm vs0 content rest found ref hf hpeek h0]
              exact fetchLoop_mem_mono dm cm vs0 vs1 href rest (found + 1) r hr
            · rw [fetchLoop_parse dm cm vs0 content rest found ref hf hpeek
                (Bool.eq_false_iff.mpr h0)]
              exact List.mem_append_right _
                (fetchLoop_mem_mono dm cm vs0 vs1 href rest (found + 1) r hr)
          · have h0 : loadRefPresent vs0 ref = false := by
              cases hx : loadRefPresent vs0 ref
              · rfl
              · exact absurd (href ref hx) h1
            rw [fetchLoop_parse dm cm vs1 content rest found ref hf hpeek
              (Bool.eq_false_iff.mpr h1),
              fetchLoop_parse dm cm vs0 content rest found ref hf hpeek h0]
            intro hr
            rcases List.mem_append.mp hr with ha | hb
            · exact List.mem_append_left _ ha
            · exact List.mem_append_right _
                (fetchLoop_mem_mono dm cm vs0 vs1 href rest (found + 1) r hb)

/-- A second ingestion run against the unchanged mailbox leaves the
vehicle master exactly as the first run left it. -/
theorem ingest_idempotent (dm : DecoderMap) (cm : ColorMap) (branch : String)
    (db : DB) (mailbox : Mailbox) :
    (ingest dm cm branch (ingest dm cm branch db mailbox) mailbox).vehicles =
      (ingest dm cm branch db mailbox).vehicles := by
  unfold ingest fetch_and_process_emails
  simp only
  apply create_vehicles_noop
  intro r hr
  have href : ∀ ref, loadRefPresent db.vehicles ref = true →
      loadRefPresent (create_vehicles_from_email_data branch
        (fetchLoop dm cm db.vehicles (mailbox.reverse.take 30) 0)
        db.vehicles) ref = true :=
    fun ref h => create_vehicles_any_mono branch _ _ db.vehicles h
  have hr1 := fetchLoop_mem_mono dm cm db.vehicles _ href
    (mailbox.reverse.take 30) 0 r hr
  exact create_vehicles_mem_present branch _ db.vehicles r hr1

/-- Processing a prefix containing at least five S08 attachments makes
everything after it unreachable. -/
theorem fetchLoop_stop (dm : DecoderMap) (cm : ColorMap) (vs : List VehicleMaster) :
    ∀ (msgs rest : List (Option (List Line))) (found : Nat),
      5 ≤ found + msgs.countP Option.isSome →
      fetchLoop dm cm vs (msgs ++ rest) found = fetchLoop dm cm vs msgs found
  | [], rest, found, h => by
    simp only [List.countP_nil, Nat.add_zero] at h
    rw [List.nil_append, fetchLoop_break dm cm vs rest found h]
    rfl
  | msg :: msgs, rest, found, h => by
    by_cases hf : 5 ≤ found
    · rw [fetchLoop_break dm cm vs _ found hf, fetchLoop_break dm cm vs _ found hf]
    · rw [List.cons_append]
      cases msg with
      | none =>
        rw [fetchLoop_skip_none dm cm vs _ found hf,
          fetchLoop_skip_none dm cm vs msgs found hf]
        exact fetchLoop_stop dm cm vs msgs rest found (by
          simp only [List.countP_cons] at h
          simpa using h)
      | some content =>
        have h5 : 5 ≤ (found + 1) + msgs.countP Option.isSome := by
          simp only [List.countP_cons, Option.isSome_some, if_true] at h
          omega
        cases hpeek : peek_load_ref content with
        | none =>
          rw [fetchLoop_skip_nopeek dm cm vs content _ found hf hpeek,
            fetchLoop_skip_nopeek dm cm vs content msgs found hf hpeek]
          exact fetchLoop_stop dm cm vs msgs rest (found + 1) h5
        | some ref =>
          cases hd : loadRefPresent vs ref with
          | true =>
            rw [fetchLoop_skip_dup dm cm vs content _ found ref hf hpeek hd,
              fetchLoop_skip_dup dm cm vs content msgs found ref hf hpeek hd]
            exact fetchLoop_stop dm cm vs msgs rest (found + 1) h5
          | false =>
            rw [fetchLoop_parse dm cm vs content _ found ref hf hpeek hd,
              fetchLoop_parse dm cm vs content msgs found ref hf hpeek hd,
              fetchLoop_stop dm cm vs msgs rest (found + 1) h5]

/-- C4: claims.  First, an ingestion run repeated against the unchanged
mailbox leaves the vehicle master unchanged (no second vehicle is created
for any chassis or load already present after the first run).  Second, an
attachment whose first qualifying record's load reference matches any
existing vehicle is skipped in its entirety.  Third, the persistence step
never adds a vehicle for a chassis number that already exists. -/
theorem ingestion_idempotent_dedup :
    (∀ (dm : DecoderMap) (cm : ColorMap) (branch : String) (db : DB)
      (mailbox : Mailbox),
      (ingest dm cm branch (ingest dm cm branch db mailbox) mailbox).vehicles =
        (ingest dm cm branch db mailbox).vehicles) ∧
    (∀ (dm : DecoderMap) (cm : ColorMap) (vs : List VehicleMaster)
      (content : List Line) (rest : List (Option (List Line)))
      (found : Nat) (ref : String),
      found < 5 → peek_load_ref content = some ref →
      loadRefPresent vs ref = true →
      fetchLoop dm cm vs (some content :: rest) found =
        fetchLoop dm cm vs rest (found + 1)) ∧
    (∀ (branch ch : String) (recs : List S08Record) (vs : List VehicleMaster),
      chassisPresent vs ch = true →
      (create_vehicles_from_email_data branch recs vs).countP
        (fun v => v.chassis_no == ch) = vs.countP (fun v => v.chassis_no == ch)) :=
  ⟨ingest_idempotent,
   fun dm cm vs content rest found ref hf hp hd =>
     fetchLoop_skip_dup dm cm vs content rest found ref (Nat.not_le.mpr hf) hp hd,
   fun branch ch recs vs h => create_vehicles_countP_present branch ch recs vs h⟩

/-- A vehicle already imported under load reference `l`. -/
def vehLoad (l : String) : VehicleMaster :=
  { vehSale with chassis_no := "CV" ++ l, load_reference_number := some l }

/-- The load references already imported in the C6 scenario. -/
def loadNames : List String := ["L001", "L002", "L003", "L004", "L005"]

/-- A vehicle master already holding loads L001..L005. -/
def db5 : DB where
  vehicles := loadNames.map vehLoad
  transactions := []

/-- A one-record manifest for load `l` (already-imported chassis). -/
def dupContent (l : String) : List Line :=
  [mkS08Line "M9".toList "V9".toList "C9".toList l.toList
    ("CH" ++ l).toList "E9".toList]

/-- A one-record manifest for the fresh load L006. -/
def freshContent : List Line :=
  [mkS08Line "M9".toList "V9".toList "C9".toList "L006".toList
    "CHL006".toList "E9".toList]

/-- A mailbox whose five newest messages carry already-imported manifests
and whose oldest carries the fresh load L006. -/
def mailbox6 : Mailbox :=
  some freshContent :: loadNames.map (fun l => some (dupContent l))

/-- Counterexample to C6 as stated: scanning `mailbox6` imports nothing —
the five duplicate attachments, though skipped without importing
anything, exhaust the stopping bound before the fresh manifest L006 is
reached; scanned alone, that same manifest parses to one record.  So an
attachment skipped by the duplicate-load check does count toward the
stopping bound. -/
theorem scan_bound_counts_skipped_cex :
    fetch_and_process_emails [] [] db5 mailbox6 = [] ∧
    (fetch_and_process_emails [] [] db5 [some freshContent]).length = 1 := by
  decide

/-- C6 (amended): each run examines at most the 30 most recent messages,
newest first; it stops once five messages carrying an S08 attachment have
been encountered in the run, whether imported or skipped — an attachment
skipped by the duplicate-load check also counts toward the stopping
bound. -/
theorem ingestion_scan_bounds :
    (∀ (dm : DecoderMap) (cm : ColorMap) (db : DB) (old recent : Mailbox),
      recent.length = 30 →
      fetch_and_process_emails dm cm db (old ++ recent) =
        fetch_and_process_emails dm cm db recent) ∧
    (∀ (dm : DecoderMap) (cm : ColorMap) (vs : List VehicleMaster)
      (msgs rest : List (Option (List Line))),
      5 ≤ msgs.countP Option.isSome →
      fetchLoop dm cm vs (msgs ++ rest) 0 = fetchLoop dm cm vs msgs 0) ∧
    (∀ (dm : DecoderMap) (cm : ColorMap) (vs : List VehicleMaster)
      (content : List Line) (rest : List (Option (List Line)))
      (found : Nat) (ref : String),
      found < 5 → peek_load_ref content = some ref →
      loadRefPresent vs ref = true →
      fetchLoop dm cm vs (some content :: rest) found =
        fetchLoop dm cm vs rest (found + 1)) := by
  refine ⟨?_, ?_, ?_⟩
  · intro dm cm db old recent hlen
    unfold fetch_and_process_emails
    have h1 : recent.reverse.length = 30 := by simp [hlen]
    rw [List.reverse_append, ← h1, List.take_left, List.take_length]
  · intro dm cm vs msgs rest h
    exact fetchLoop_stop dm cm vs msgs rest 0 (by omega)
  · intro dm cm vs content rest found ref hf hp hd
    exact fetchLoop_skip_dup dm cm vs content rest found ref (Nat.not_le.mpr hf) hp hd

/-- Witness for the amended C6 at concrete mailboxes. -/
theorem ingestion_scan_bounds_witness :
    (List.replicate 30 (none : Option (List Line))).length = 30 ∧
    fetch_and_process_emails [] [] db5
        ([some freshContent] ++ List.replicate 30 none) =
      fetch_and_process_emails [] [] db5 (List.replicate 30 none) ∧
    5 ≤ mailbox6.countP Option.isSome ∧
    fetchLoop [] [] db5.vehicles (mailbox6 ++ [some freshContent]) 0 =
      fetchLoop [] [] db5.vehicles mailbox6 0 ∧
    ((0 : Nat) < 5 ∧ peek_load_ref (dupContent "L002") = some "L002" ∧
     loadRefPresent db5.vehicles "L002" = true ∧
     fetchLoop [] [] db5.vehicles (some (dupContent "L002") :: []) 0 =
       fetchLoop [] [] db5.vehicles [] 1) :=
  ⟨by decide,
   ingestion_scan_bounds.1 [] [] db5 [some freshContent]
     (List.replicate 30 none) (by decide),
   by decide,
   ingestion_scan_bounds.2.1 [] [] db5.vehicles mailbox6 [some freshContent]
     (by decide),
   by decide, by decide, by decide,
   ingestion_scan_bounds.2.2 [] [] db5.vehicles (dupContent "L002") [] 0 "L002"
     (by decide) (by decide) (by decide)⟩

/-- Witness for C4's hypotheses at concrete inputs. -/
theorem ingestion_idempotent_dedup_witness :
    ((0 : Nat) < 5 ∧ peek_load_ref (dupContent "L001") = some "L001" ∧
     loadRefPresent db5.vehicles "L001" = true ∧
     fetchLoop [] [] db5.vehicles (some (dupContent "L001") :: []) 0 =
       fetchLoop [] [] db5.vehicles [] 1) ∧
    (chassisPresent [vehSale] "GOOD1" = true ∧
     (create_vehicles_from_email_data "B1"
        [{ load_reference := "LX", chassis_no := "GOOD1", engine_no := "E",
           color := "C", model := "M", variant := "V" }] [vehSale]).countP
        (fun v => v.chassis_no == "GOOD1") =
       [vehSale].countP (fun v => v.chassis_no == "GOOD1")) :=
  ⟨⟨by decide, by decide, by decide,
     ingestion_idempotent_dedup.2.1 [] [] db5.vehicles (dupContent "L001") [] 0
       "L001" (by decide) (by decide) (by decide)⟩,
   ⟨by decide,
     ingestion_idempotent_dedup.2.2 "B1" "GOOD1"
       [{ load_reference := "LX", chassis_no := "GOOD1", engine_no := "E",
          color := "C", model := "M", variant := "V" }] [vehSale] (by decide)⟩⟩

/-- The decoder mapping of the §8.7 scenario: model code M1 / variant V1
decodes to Activa. -/
def dmScenario : DecoderMap := [(("M1", "V1"), ("Activa", "V1"))]

/-- The single qualifying manifest line of the §8.7 scenario. -/
def lineScenario : Line :=
  mkS08Line "M1".toList "V1".toList "C1".toList "LOAD001".toList
    "CH123".toList "ENG1".toList

/-- An empty database. -/
def dbEmpty : DB where
  vehicles := []
  transactions := []

/-- The vehicle the §8.7 scenario expects. -/
def vehScenario : VehicleMaster where
  chassis_no := "CH123"
  engine_no := "ENG1"
  model := "Activa"
  variant := "V1"
  color := "C1"
  status := "In Transit"
  load_reference_number := some "LOAD001"
  current_branch_id := "B1"

/-- C8: the persistence step inserts, for each record whose chassis is not
yet present, exactly one new vehicle with status In Transit, the
configured branch, and the manifest's load reference; and ingesting the
concrete LOAD001 manifest (one qualifying record, chassis CH123, mapped
model Activa, unmapped color C1) into an empty database yields exactly
the vehicle {CH123, Activa, C1, In Transit, LOAD001}. -/
theorem persist_in_transit_vehicle :
    (∀ (branch : String) (r : S08Record) (rest : List S08Record)
      (vs : List VehicleMaster), chassisPresent vs r.chassis_no = false →
      create_vehicles_from_email_data branch (r :: rest) vs =
        create_vehicles_from_email_data branch rest
          (vs ++ [mkVehicleFromRecord branch r]) ∧
      (mkVehicleFromRecord branch r).chassis_no = r.chassis_no ∧
      (mkVehicleFromRecord branch r).model = r.model ∧
      (mkVehicleFromRecord branch r).color = r.color ∧
      (mkVehicleFromRecord branch r).status = "In Transit" ∧
      (mkVehicleFromRecord branch r).current_branch_id = branch ∧
      (mkVehicleFromRecord branch r).load_reference_number = some r.load_reference) ∧
    (ingest dmScenario [] "B1" dbEmpty [some [lineScenario]]).vehicles =
      [vehScenario] := by
  constructor
  · intro branch r rest vs h
    refine ⟨?_, rfl, rfl, rfl, rfl, rfl, rfl⟩
    rw [create_vehicles_from_email_data]
    simp only [h, Bool.false_eq_true, if_false]
  · decide

/-- Witness for C8's general conjunct at a concrete fresh record. -/
theorem persist_in_transit_vehicle_witness :
    chassisPresent [] "CHW9" = false ∧
    (create_vehicles_from_email_data "B1"
        [{ load_reference := "LOAD002", chassis_no := "CHW9", engine_no := "E",
           color := "C", model := "M", variant := "V" }] [] =
      create_vehicles_from_email_data "B1" []
        ([] ++ [mkVehicleFromRecord "B1"
          { load_reference := "LOAD002", chassis_no := "CHW9", engine_no := "E",
            color := "C", model := "M", variant := "V" }]) ∧
     (mkVehicleFromRecord "B1"
        { load_reference := "LOAD002", chassis_no := "CHW9", engine_no := "E",
          color := "C", model := "M", variant := "V" }).chassis_no = "CHW9" ∧
     (mkVehicleFromRecord "B1"
        { load_reference := "LOAD002", chassis_no := "CHW9", engine_no := "E",
          color := "C", model := "M", variant := "V" }).model = "M" ∧
     (mkVehicleFromRecord "B1"
        { load_reference := "LOAD002", chassis_no := "CHW9", engine_no := "E",
          color := "C", model := "M", variant := "V" }).color = "C" ∧
     (mkVehicleFromRecord "B1"
        { load_reference := "LOAD002", chassis_no := "CHW9", engine_no := "E",
          color := "C", model := "M", variant := "V" }).status = "In Transit" ∧
     (mkVehicleFromRecord "B1"
        { load_reference := "LOAD002", chassis_no := "CHW9", engine_no := "E",
          color := "C", model := "M", variant := "V" }).current_branch_id = "B1" ∧
     (mkVehicleFromRecord "B1"
        { load_reference := "LOAD002", chassis_no := "CHW9", engine_no := "E",
          color := "C", model := "M", variant := "V" }).load_reference_number =
       some "LOAD002") :=
  ⟨rfl, persist_in_transit_vehicle.1 "B1"
    { load_reference := "LOAD002", chassis_no := "CHW9", engine_no := "E",
      color := "C", model := "M", variant := "V" } [] [] (by decide)⟩

end PDI
